import Mathlib

/-!
Shallow embedding of the Scene-comparison-gpt application (`src/app.py`): a
Streamlit page that ingests uploaded `.txt`/`.docx` script files, composes a
fixed comparative-analysis prompt around them, and dispatches it to exactly one
of three text-generation providers.  UI plumbing (widgets, spinner, download
button) is out of scope; the embedded core is `read_scripts`, the `prompt`
f-string, `analyze_with_gemini`, and the guarded dispatch.  External effects
(the docx parser, HTTP calls, SDK calls) enter as explicit data: a `UFile`
carries both its raw bytes and the paragraph texts the docx library would
extract, HTTP replies are `HttpResponse` values, and the three `analyze_with_*`
outcomes are an oracle `Provider → String → String → Except String String`
where `Except.error` models a raised exception.
-/

namespace SceneComparison

/-- Python's `str.join`: `strJoin sep [a, b, c] = a ++ sep ++ b ++ sep ++ c`,
`strJoin sep [] = ""`.  Models `"sep".join(list)` from `app.py`. -/
def strJoin (sep : String) : List String → String
  | [] => ""
  | [x] => x
  | x :: xs => x ++ sep ++ strJoin sep xs

/-- Python's `str.endswith`: suffix test on the character sequence.
Models `f.name.endswith(".txt")` / `f.name.endswith(".docx")`. -/
def pyEndsWith (s suffix : String) : Bool :=
  suffix.data.isSuffixOf s.data

/-- Strict UTF-8 decoding of a byte sequence, as `bytes.decode("utf-8")`
performs it: `none` models a raised `UnicodeDecodeError` (truncated sequences,
bad continuation bytes, overlong encodings, surrogate code points and
out-of-range lead bytes all fail). -/
def utf8Decode : List Nat → Option (List Char)
  | [] => some []
  | b :: rest =>
    if b ≤ 0x7F then
      (utf8Decode rest).map (fun cs => Char.ofNat b :: cs)
    else if 0xC2 ≤ b ∧ b ≤ 0xDF then
      match rest with
      | b2 :: rest2 =>
        if 0x80 ≤ b2 ∧ b2 ≤ 0xBF then
          (utf8Decode rest2).map (fun cs =>
            Char.ofNat ((b - 0xC0) * 0x40 + (b2 - 0x80)) :: cs)
        else none
      | [] => none
    else if 0xE0 ≤ b ∧ b ≤ 0xEF then
      match rest with
      | b2 :: b3 :: rest3 =>
        if (0x80 ≤ b2 ∧ b2 ≤ 0xBF) ∧ (0x80 ≤ b3 ∧ b3 ≤ 0xBF)
            ∧ ¬(b = 0xE0 ∧ b2 < 0xA0) ∧ ¬(b = 0xED ∧ 0xA0 ≤ b2) then
          (utf8Decode rest3).map (fun cs =>
            Char.ofNat ((b - 0xE0) * 0x1000 + (b2 - 0x80) * 0x40 + (b3 - 0x80)) :: cs)
        else none
      | _ => none
    else if 0xF0 ≤ b ∧ b ≤ 0xF4 then
      match rest with
      | b2 :: b3 :: b4 :: rest4 =>
        if (0x80 ≤ b2 ∧ b2 ≤ 0xBF) ∧ (0x80 ≤ b3 ∧ b3 ≤ 0xBF) ∧ (0x80 ≤ b4 ∧ b4 ≤ 0xBF)
            ∧ ¬(b = 0xF0 ∧ b2 < 0x90) ∧ ¬(b = 0xF4 ∧ 0x90 ≤ b2) then
          (utf8Decode rest4).map (fun cs =>
            Char.ofNat ((b - 0xF0) * 0x40000 + (b2 - 0x80) * 0x1000
              + (b3 - 0x80) * 0x40 + (b4 - 0x80)) :: cs)
        else none
      | _ => none
    else none

/-- Latin-1 decoding, as `bytes.decode("latin1", errors="ignore")`: every byte
`b < 256` maps to the character `U+00b`, so no byte is ever dropped and the
decode is total (the `% 256` only makes the model total on all of `Nat`;
actual file bytes are below 256). -/
def latin1Decode (bs : List Nat) : List Char :=
  bs.map (fun b => Char.ofNat (b % 256))

/-- The `.txt` branch of `read_scripts`: `f.read().decode("utf-8")`, and on
`UnicodeDecodeError` the `f.seek(0)` re-read decoded as
`.decode("latin1", errors="ignore")`. -/
def decodeTxt (bs : List Nat) : String :=
  match utf8Decode bs with
  | some cs => String.mk cs
  | none => String.mk (latin1Decode bs)

/-- One uploaded file blob.  `bytes` is the raw content consumed by the `.txt`
branch; `paras` is the list of paragraph texts (`p.text for p in
Document(f).paragraphs`) that the external docx parser yields when the `.docx`
branch hands the same blob to `python-docx`. -/
structure UFile where
  name : String
  bytes : List Nat
  paras : List String
deriving DecidableEq

/-- The loop body of `read_scripts`, with the function-scoped Python local
`text` made explicit: `textVar = none` means `text` is not yet bound.  A file
whose name matches neither `.txt` nor `.docx` leaves `text` unchanged, so
`contents.append(text)` either raises `NameError` (no prior binding) or
appends the previous file's text — exactly the source's missing-else slip. -/
def readScriptsLoop : List UFile → Option String → Except String (List String)
  | [], _ => .ok []
  | f :: fs, textVar =>
    let t? : Option String :=
      if pyEndsWith f.name ".txt" then some (decodeTxt f.bytes)
      else if pyEndsWith f.name ".docx" then some (strJoin "\n" f.paras)
      else textVar
    match t? with
    | none => .error "NameError: name \x27text\x27 is not defined"
    | some t => (readScriptsLoop fs (some t)).map (fun rest => t :: rest)

/-- `read_scripts(files)` from `app.py` (lines 20–33).  `Except.error` models
an exception escaping the function. -/
def read_scripts (files : List UFile) : Except String (List String) :=
  readScriptsLoop files none

/-- The per-file text a supported file contributes: the `.txt` branch's decode
or the `.docx` branch's newline-joined paragraphs. -/
def decodeOne (f : UFile) : String :=
  if pyEndsWith f.name ".txt" then decodeTxt f.bytes
  else strJoin "\n" f.paras

/-- A file the uploader's `type=['txt', 'docx']` filter admits. -/
def validFile (f : UFile) : Bool :=
  pyEndsWith f.name ".txt" || pyEndsWith f.name ".docx"

/-- The f-string template up to its single interpolation `{len(scripts)}`
(`app.py` lines 72–75). -/
def templatePre : String :=
  "\nYou are an expert in Indian TV serial screenwriting and narrative evaluation.\n\nYour task is to provide a **professional comparative analysis** of "

/-- The f-string template after the interpolation, down to the closing
`Here are the scripts:` line (`app.py` lines 75–109). -/
def templatePost : String :=
  " episodes of a Hindi-English TV serial. These scripts are written in English and Hindi (in Roman/English script). The focus is not just to summarize, but to compare and evaluate how the script has evolved across episodes and what could be improved.\n"
  ++ "\n### DELIVER THE FOLLOWING SECTIONS:\n\n"
  ++ "1. **EXECUTIVE SUMMARY**  \n   Provide a concise 250-word summary that compares how the story, emotion, pacing, and characters have shifted across the scripts. Highlight what’s working well and where the creative direction seems weak.\n\n"
  ++ "2. **SYNOPSIS FOR EACH EPISODE**  \n   Provide a 150–200 word summary per script, covering story arc, emotional tone, and setting.\n\n"
  ++ "3. **NOTABLE HINDI (ROMANIZED) DIALOGUES**  \n   List 10 strong or emotionally significant Hindi-in-English lines across all episodes. Identify the speaker and briefly explain their emotional or narrative importance.\n\n"
  ++ "4. **DETAILED COMPARATIVE DEVELOPMENT ANALYSIS**  \n   For each area below, provide side-by-side comparison AND explain how the script has improved, stagnated, or declined in Episode 2 vs Episode 1:\n\n"
  ++ "   - **Narrative Structure**  \n     (What new conflicts are introduced? Are subplots resolving or dragging?)\n"
  ++ "   - **Character Development**  \n     (Which characters have shown growth? Who is becoming flat or inconsistent?)\n"
  ++ "   - **Dialogues and Language**  \n     (Changes in tone, more poetic, sharper, or more cliché? Any noticeable shifts in Hinglish usage?)\n"
  ++ "   - **Themes and Moral Messaging**  \n     (What underlying values or messages are becoming prominent or diluted?)\n"
  ++ "   - **Emotional & Sentiment Flow**  \n     (Pacing of emotional highs/lows—what works, what feels forced?)\n"
  ++ "   - **Scene Pacing and Visual Rhythm**  \n     (Has pacing improved? Are transitions smoother? Visual imagination better?)\n\n"
  ++ "5. **RECOMMENDATIONS**  \n   Offer creative suggestions on how the storyline, character portrayal, and dialogues can be elevated in the next episodes. Be specific and not generic.\n\n"
  ++ "Be detailed, use full paragraphs. Focus on evolution across episodes. Don\x27t summarize section-wise without analysis. Do not translate Hindi lines—interpret them contextually.\n\n"
  ++ "Here are the scripts:\n"

/-- The separator the join places between two rendered scripts. -/
def scriptSep : String := "\n\n---\n\n"

/-- `[f"Script {i+1}:\n{scripts[i]}" for i in range(len(scripts))]`. -/
def renderScripts (scripts : List String) : List String :=
  (List.range scripts.length).map
    (fun i => "Script " ++ toString (i + 1) ++ ":\n" ++ scripts.getD i "")

/-- The composed prompt (`app.py` lines 72–110): the f-string template with
`len(scripts)` interpolated, followed by the rendered scripts joined by
`"\n\n---\n\n"`. -/
def prompt (scripts : List String) : String :=
  templatePre ++ toString scripts.length ++ templatePost
    ++ strJoin scriptSep (renderScripts scripts)

/-- The three recognized providers of the `model_choice` selectbox. -/
inductive Provider
  | gpt4
  | gemini
  | huggingface
deriving DecidableEq

/-- The selector string attached to each provider. -/
def providerName : Provider → String
  | .gpt4 => "GPT-4 (OpenAI)"
  | .gemini => "Gemini Pro (Google AI)"
  | .huggingface => "Hugging Face"

/-- The `if/elif/elif/else` dispatch on `model_choice` (`app.py` lines
114–121).  `call` abstracts the three `analyze_with_*` functions, whose
outcome depends on the network/SDK: `Except.error` models a raised exception.
The second component records which adapters were invoked, one entry per call
site reached, so "no network call" is "empty trace". -/
def dispatch (model_choice p api_key : String)
    (call : Provider → String → String → Except String String) :
    Except String String × List Provider :=
  if model_choice = "GPT-4 (OpenAI)" then
    (call .gpt4 p api_key, [.gpt4])
  else if model_choice = "Gemini Pro (Google AI)" then
    (call .gemini p api_key, [.gemini])
  else if model_choice = "Hugging Face" then
    (call .huggingface p api_key, [.huggingface])
  else
    (.ok "Invalid model selected.", [])

/-- The body of the button handler (`app.py` lines 70–123): ingest, compose,
dispatch inside `try/except Exception`.  `read_scripts` runs before the `try`,
so an exception there propagates (`Except.error`); an adapter exception is
caught and collapsed into the `"Error during analysis: ..."` result string. -/
def runAnalysis (files : List UFile) (model_choice api_key : String)
    (call : Provider → String → String → Except String String) :
    Except String (String × List Provider) :=
  match read_scripts files with
  | .error e => .error e
  | .ok scripts =>
    let d := dispatch model_choice (prompt scripts) api_key call
    let result : String :=
      match d.1 with
      | .ok s => s
      | .error e => "Error during analysis: " ++ e
    .ok (result, d.2)

/-- The page-level guard `if uploaded_files and model_choice and api_key:`
(`app.py` line 68): Python truthiness demands a non-empty file list and
non-empty selector and credential strings; otherwise the analysis body never
runs (`none`). -/
def appRun (uploaded_files : List UFile) (model_choice api_key : String)
    (call : Provider → String → String → Except String String) :
    Option (Except String (String × List Provider)) :=
  if uploaded_files ≠ [] ∧ model_choice ≠ "" ∧ api_key ≠ "" then
    some (runAnalysis uploaded_files model_choice api_key call)
  else
    none

/-- JSON values, for the bodies `response.json()` yields. -/
inductive Json
  | null
  | bool (b : Bool)
  | num (n : Int)
  | str (s : String)
  | arr (items : List Json)
  | obj (fields : List (String × Json))

/-- Python subscripting `j["k"]` on a decoded JSON value: a key lookup that
raises `KeyError` when the key is absent and `TypeError` when the value is not
an object (exception messages abbreviated). -/
def jsonField : Json → String → Except String Json
  | .obj fields, k =>
    match fields.lookup k with
    | some v => .ok v
    | none => .error ("KeyError: \x27" ++ k ++ "\x27")
  | _, k => .error ("TypeError: \x27" ++ k ++ "\x27 indexing on a non-object value")

/-- Python subscripting `j[0]`: first element of a JSON array, raising
`IndexError` on an empty array and `TypeError` on a non-array. -/
def jsonItem : Json → Except String Json
  | .arr (x :: _) => .ok x
  | .arr [] => .error "IndexError: list index out of range"
  | _ => .error "TypeError: the value is not subscriptable by an integer"

/-- An HTTP reply as `requests.post` returns it.  `text` is the raw body
(`response.text`); `jsonBody` is its JSON parse, with `none` modelling
`response.json()` raising because the body is not valid JSON.  `requests`
does not raise on HTTP error statuses (the source never calls
`raise_for_status`), so an HTTP-level error arrives here as a body without
the expected shape. -/
structure HttpResponse where
  jsonBody : Option Json
  text : String

/-- Python `str()` of the extracted JSON value — the source returns the value
raw and Streamlit renders it as text; only the `.str` case occurs for
well-formed provider replies (composite cases abbreviated). -/
def pyStr : Json → String
  | .null => "None"
  | .bool true => "True"
  | .bool false => "False"
  | .num n => toString n
  | .str s => s
  | .arr _ => "[...]"
  | .obj _ => "\x7b...\x7d"

/-- The extraction chain
`response.json()["candidates"][0]["content"]["parts"][0]["text"]` from
`analyze_with_gemini`, with the first raised exception as the error. -/
def geminiExtract (j : Json) : Except String Json := do
  let c ← jsonField j "candidates"
  let c0 ← jsonItem c
  let content ← jsonField c0 "content"
  let parts ← jsonField content "parts"
  let p0 ← jsonItem parts
  jsonField p0 "text"

/-- The message of the `json.JSONDecodeError` raised by `response.json()` on
a non-JSON body. -/
def jsonDecodeMsg : String := "Expecting value: line 1 column 1 (char 0)"

/-- `analyze_with_gemini` (`app.py` lines 44–57) after the HTTP exchange:
`try: return <extraction> except Exception as e: return f"Error: {e}\n{response.text}"`. -/
def analyze_with_gemini (resp : HttpResponse) : String :=
  match resp.jsonBody with
  | none => "Error: " ++ jsonDecodeMsg ++ "\n" ++ resp.text
  | some j =>
    match geminiExtract j with
    | .ok v => pyStr v
    | .error e => "Error: " ++ e ++ "\n" ++ resp.text

/-- Modelled from the spec: the delimiter that sets the optional user
addendum apart («prefixed with a clear delimiter»); `src/app.py` has no
addendum input (it exists only in the other variants of this repository),
so the exact delimiter text is a representative choice. -/
def addendumDelimiter : String := "\n\nADDITIONAL INSTRUCTIONS:\n"

/-- Modelled from the spec: the §4.2 composition rule `template_text +
(optional addendum, prefixed with a clear delimiter, only if non-empty) + a
document separator + the rendered scripts joined pairwise by the separator`.
The template and script rendering are those of `src/app.py`; the addendum
slot itself is absent from `src/app.py` and is taken from the spec's words. -/
def compose_with_addendum (scripts : List String) (addendum : String) : String :=
  templatePre ++ toString scripts.length ++ templatePost
    ++ (if addendum = "" then "" else addendumDelimiter ++ addendum)
    ++ scriptSep ++ strJoin scriptSep (renderScripts scripts)

/-- `p` occurs contiguously inside `s`. -/
def IsSubstr (p s : String) : Prop :=
  ∃ a b, s = a ++ p ++ b

theorem strJoin_cons_cons (sep x y : String) (t : List String) :
    strJoin sep (x :: y :: t) = x ++ sep ++ strJoin sep (y :: t) := rfl

theorem strJoin_get (sep : String) (l : List String) (i : Nat) (h : i < l.length) :
    ∃ a b, strJoin sep l = a ++ l.get ⟨i, h⟩ ++ b := by
  induction l generalizing i with
  | nil => simp at h
  | cons x xs ih =>
    cases i with
    | zero =>
      cases xs with
      | nil =>
        exact ⟨"", "", by simp [strJoin, String.append_empty]⟩
      | cons y t =>
        refine ⟨"", sep ++ strJoin sep (y :: t), ?_⟩
        simp [strJoin_cons_cons, String.append_assoc]
    | succ j =>
      have hj : j < xs.length := by simpa using h
      obtain ⟨a, b, hab⟩ := ih j hj
      cases xs with
      | nil => simp at hj
      | cons y t =>
        refine ⟨x ++ sep ++ a, b, ?_⟩
        rw [strJoin_cons_cons, hab]
        simp [String.append_assoc]

theorem renderScripts_length (scripts : List String) :
    (renderScripts scripts).length = scripts.length := by
  simp [renderScripts]

theorem renderScripts_get (scripts : List String) (i : Nat) (hi : i < scripts.length)
    (hr : i < (renderScripts scripts).length) :
    (renderScripts scripts).get ⟨i, hr⟩
      = "Script " ++ toString (i + 1) ++ ":\n" ++ scripts.get ⟨i, hi⟩ := by
  simp [renderScripts, List.get_eq_getElem, List.getD_eq_getElem?_getD,
    List.getElem?_eq_getElem hi]

theorem dispatch_of_name (prov : Provider) (p key : String)
    (call : Provider → String → String → Except String String) :
    dispatch (providerName prov) p key call = (call prov p key, [prov]) := by
  cases prov with
  | gpt4 =>
    show dispatch "GPT-4 (OpenAI)" p key call = _
    rw [dispatch, if_pos rfl]
  | gemini =>
    show dispatch "Gemini Pro (Google AI)" p key call = _
    rw [dispatch, if_neg (by decide), if_pos rfl]
  | huggingface =>
    show dispatch "Hugging Face" p key call = _
    rw [dispatch, if_neg (by decide), if_neg (by decide), if_pos rfl]

theorem dispatch_eq_of_name (mc : String) (prov : Provider) (p key : String)
    (call : Provider → String → String → Except String String)
    (h : mc = providerName prov) :
    dispatch mc p key call = (call prov p key, [prov]) := by
  rw [h]; exact dispatch_of_name prov p key call

theorem dispatch_unrecognized (mc p key : String)
    (call : Provider → String → String → Except String String)
    (h : ∀ prov, mc ≠ providerName prov) :
    dispatch mc p key call = (.ok "Invalid model selected.", []) := by
  rw [dispatch, if_neg (show mc ≠ "GPT-4 (OpenAI)" from h .gpt4),
    if_neg (show mc ≠ "Gemini Pro (Google AI)" from h .gemini),
    if_neg (show mc ≠ "Hugging Face" from h .huggingface)]

theorem dispatch_trace_le_one (mc p key : String)
    (call : Provider → String → String → Except String String) :
    (dispatch mc p key call).2.length ≤ 1 := by
  rw [dispatch]
  split_ifs <;> simp

theorem except_bind_ok {α β ε : Type} (a : α) (f : α → Except ε β) :
    (do let x ← Except.ok a; f x) = f a := rfl

theorem except_bind_error {α β ε : Type} (e : ε) (f : α → Except ε β) :
    (do let x ← (Except.error e : Except ε α); f x)
      = (Except.error e : Except ε β) := rfl

theorem isSubstr_error_msg (m t : String) :
    IsSubstr "Error" ("Error: " ++ m ++ "\n" ++ t) := by
  refine ⟨"", ": " ++ m ++ "\n" ++ t, ?_⟩
  have lit : ("Error" : String) ++ ": " = "Error: " := rfl
  have key : ("Error" : String) ++ (": " ++ (m ++ ("\n" ++ t)))
      = "Error: " ++ (m ++ ("\n" ++ t)) := by
    rw [← String.append_assoc, lit]
  simp [String.append_assoc, String.empty_append, key]

theorem isSubstr_suffix (a t : String) : IsSubstr t (a ++ t) :=
  ⟨a, "", by simp [String.append_empty]⟩

theorem readScriptsLoop_all_valid (files : List UFile) (tv : Option String)
    (h : ∀ f ∈ files, validFile f = true) :
    readScriptsLoop files tv = .ok (files.map decodeOne) := by
  induction files generalizing tv with
  | nil => rfl
  | cons f fs ih =>
    have hf : validFile f = true := h f (by simp)
    have hfs : ∀ g ∈ fs, validFile g = true := fun g hg => h g (by simp [hg])
    by_cases ht : pyEndsWith f.name ".txt" = true
    · simp [readScriptsLoop, ht, decodeOne, ih (some (decodeTxt f.bytes)) hfs, Except.map]
    · have hd : pyEndsWith f.name ".docx" = true := by
        simpa [validFile, ht] using hf
      simp [readScriptsLoop, ht, hd, decodeOne,
        ih (some (strJoin "\n" f.paras)) hfs, Except.map]

/-- C1: for every non-empty list of decoded scripts the composed prompt
interpolates the literal document count `len(scripts)` at the template's
reference site (right after the text ending «analysis** of »), renders each
script as "Script <1-based index>:\n<text>" somewhere in the prompt in
ingestion order, and for three documents lays them out as Script 1, then the
separator line, then Script 2, then the separator line, then Script 3. -/
theorem c1_prompt_count_and_order (scripts : List String) (h : scripts ≠ []) :
    (∃ tail, prompt scripts = templatePre ++ toString scripts.length ++ tail)
    ∧ (∀ i (hi : i < scripts.length),
        IsSubstr ("Script " ++ toString (i + 1) ++ ":\n" ++ scripts.get ⟨i, hi⟩)
          (prompt scripts))
    ∧ (∀ s1 s2 s3 : String, prompt [s1, s2, s3]
        = templatePre ++ toString (3 : Nat) ++ templatePost
          ++ ("Script 1:\n" ++ s1) ++ scriptSep ++ ("Script 2:\n" ++ s2)
          ++ scriptSep ++ ("Script 3:\n" ++ s3)) := by
  refine ⟨⟨templatePost ++ strJoin scriptSep (renderScripts scripts),
    by simp [prompt, String.append_assoc]⟩, ?_, ?_⟩
  · intro i hi
    have hr : i < (renderScripts scripts).length := by
      simpa [renderScripts_length] using hi
    obtain ⟨a, b, hab⟩ := strJoin_get scriptSep (renderScripts scripts) i hr
    refine ⟨templatePre ++ toString scripts.length ++ templatePost ++ a, b, ?_⟩
    rw [prompt, hab, renderScripts_get scripts i hi hr]
    simp [String.append_assoc]
  · intro s1 s2 s3
    have hrender : renderScripts [s1, s2, s3]
        = ["Script 1:\n" ++ s1, "Script 2:\n" ++ s2, "Script 3:\n" ++ s3] := by
      simp [renderScripts, List.range_succ]
      exact ⟨rfl, rfl, rfl⟩
    rw [prompt, hrender]
    simp [strJoin, scriptSep, String.append_assoc]

/-- Closed instance of `c1_prompt_count_and_order` at a two-script list. -/
theorem c1_witness :
    ∃ tail, prompt ["A", "B"] = templatePre ++ toString (2 : Nat) ++ tail :=
  (c1_prompt_count_and_order ["A", "B"] (by simp)).1

/-- C2: for every valid non-empty list of uploaded documents (each file name
matching the uploader's `.txt`/`.docx` filter), `read_scripts` raises nothing
and returns a list of text strings of the same length, whose i-th entry is
the decode of the i-th input file. -/
theorem c2_ingestion_same_length_same_order (files : List UFile)
    (hne : files ≠ []) (h : ∀ f ∈ files, validFile f = true) :
    ∃ scripts, read_scripts files = .ok scripts
      ∧ scripts.length = files.length
      ∧ ∀ i (hi : i < files.length),
          scripts.getD i "" = decodeOne (files.get ⟨i, hi⟩) := by
  refine ⟨files.map decodeOne, readScriptsLoop_all_valid files none h, by simp, ?_⟩
  intro i hi
  rw [List.getD_eq_getElem _ _ (by simpa using hi)]
  simp [List.get_eq_getElem]

/-- Closed instance of `c2_ingestion_same_length_same_order` on one `.txt`
and one `.docx` file. -/
theorem c2_witness :
    ∃ scripts,
      read_scripts [⟨"a.txt", [0x68], []⟩, ⟨"b.docx", [], ["p1", "p2"]⟩] = .ok scripts
      ∧ scripts.length = 2
      ∧ ∀ i (hi : i < ([⟨"a.txt", [0x68], []⟩, ⟨"b.docx", [], ["p1", "p2"]⟩] : List UFile).length),
          scripts.getD i ""
            = decodeOne (([⟨"a.txt", [0x68], []⟩, ⟨"b.docx", [], ["p1", "p2"]⟩] : List UFile).get ⟨i, hi⟩) :=
  c2_ingestion_same_length_same_order
    [⟨"a.txt", [0x68], []⟩, ⟨"b.docx", [], ["p1", "p2"]⟩] (by simp) (by decide)

/-- C3: the dispatch invokes at most one provider adapter per request (no
fan-out, fallback or retry), a recognized selector invokes exactly its
adapter, and an unrecognized selector yields the sentinel
"Invalid model selected." with an empty call trace and no exception. -/
theorem c3_dispatch_exactly_one_provider (mc p key : String)
    (call : Provider → String → String → Except String String) :
    (dispatch mc p key call).2.length ≤ 1
    ∧ (∀ prov, mc = providerName prov →
        dispatch mc p key call = (call prov p key, [prov]))
    ∧ ((∀ prov, mc ≠ providerName prov) →
        dispatch mc p key call = (.ok "Invalid model selected.", [])) :=
  ⟨dispatch_trace_le_one mc p key call,
   fun prov hp => dispatch_eq_of_name mc prov p key call hp,
   fun hn => dispatch_unrecognized mc p key call hn⟩

/-- Closed instance of `c3_dispatch_exactly_one_provider` at the unrecognized
selector "Llama": sentinel result, empty call trace. -/
theorem c3_witness :
    dispatch "Llama" "p" "k" (fun _ _ _ => Except.ok "r")
      = (.ok "Invalid model selected.", []) :=
  (c3_dispatch_exactly_one_provider "Llama" "p" "k" (fun _ _ _ => Except.ok "r")).2.2
    (fun prov => by cases prov <;> decide)

/-- C4: the page-level guard rejects the pipeline before any provider call
when the uploaded-file list is empty or the credential is empty: the analysis
body (ingestion, composition, dispatch) never runs. -/
theorem c4_empty_inputs_rejected_before_dispatch (files : List UFile)
    (mc key : String) (call : Provider → String → String → Except String String)
    (h : files = [] ∨ key = "") :
    appRun files mc key call = none := by
  rcases h with h | h <;> simp [appRun, h]

/-- Closed instance of `c4_empty_inputs_rejected_before_dispatch` at an empty
document list. -/
theorem c4_witness :
    appRun [] "Gemini Pro (Google AI)" "k" (fun _ _ _ => Except.ok "r") = none :=
  c4_empty_inputs_rejected_before_dispatch [] "Gemini Pro (Google AI)" "k"
    (fun _ _ _ => Except.ok "r") (Or.inl rfl)

/-- C5: `analyze_with_gemini` never raises: a non-JSON body, and any body on
which the `candidates` extraction chain fails (which is where HTTP error
statuses land, since `requests.post` does not raise on them), yield the
formatted failure string `"Error: <e>\n<raw body>"` — containing the word
"Error" and the raw response body — while a body of the expected candidates
shape yields the first candidate's first content part's text. -/
theorem c5_gemini_failure_normalized (resp : HttpResponse) :
    (resp.jsonBody = none →
      analyze_with_gemini resp = "Error: " ++ jsonDecodeMsg ++ "\n" ++ resp.text
      ∧ IsSubstr "Error" (analyze_with_gemini resp)
      ∧ IsSubstr resp.text (analyze_with_gemini resp))
    ∧ (∀ j e, resp.jsonBody = some j → geminiExtract j = .error e →
      analyze_with_gemini resp = "Error: " ++ e ++ "\n" ++ resp.text
      ∧ IsSubstr "Error" (analyze_with_gemini resp)
      ∧ IsSubstr resp.text (analyze_with_gemini resp))
    ∧ (∀ fields, resp.jsonBody = some (.obj fields) →
        fields.lookup "candidates" = none →
        geminiExtract (.obj fields) = .error ("KeyError: \x27candidates\x27"))
    ∧ (∀ tf cf contentF pf (cs ps : List Json) (s : String),
        resp.jsonBody = some (.obj tf) →
        tf.lookup "candidates" = some (.arr (.obj cf :: cs)) →
        cf.lookup "content" = some (.obj contentF) →
        contentF.lookup "parts" = some (.arr (.obj pf :: ps)) →
        pf.lookup "text" = some (.str s) →
        analyze_with_gemini resp = s) := by
  refine ⟨?_, ?_, ?_, ?_⟩
  · intro hb
    have hres : analyze_with_gemini resp
        = "Error: " ++ jsonDecodeMsg ++ "\n" ++ resp.text := by
      simp [analyze_with_gemini, hb]
    refine ⟨hres, ?_, ?_⟩ <;> rw [hres]
    · exact isSubstr_error_msg jsonDecodeMsg resp.text
    · exact isSubstr_suffix _ resp.text
  · intro j e hb he
    have hres : analyze_with_gemini resp = "Error: " ++ e ++ "\n" ++ resp.text := by
      simp [analyze_with_gemini, hb, he]
    refine ⟨hres, ?_, ?_⟩ <;> rw [hres]
    · exact isSubstr_error_msg e resp.text
    · exact isSubstr_suffix _ resp.text
  · intro fields hb hl
    have hx : jsonField (Json.obj fields) "candidates"
        = .error ("KeyError: \x27candidates\x27") := by
      simp [jsonField, hl]
    simp only [geminiExtract, hx, except_bind_error]
  · intro tf cf contentF pf cs ps s hb h1 h2 h3 h4
    have e1 : jsonField (Json.obj tf) "candidates"
        = .ok (.arr (.obj cf :: cs)) := by simp [jsonField, h1]
    have e2 : jsonField (Json.obj cf) "content"
        = .ok (.obj contentF) := by simp [jsonField, h2]
    have e3 : jsonField (Json.obj contentF) "parts"
        = .ok (.arr (.obj pf :: ps)) := by simp [jsonField, h3]
    have e4 : jsonField (Json.obj pf) "text" = .ok (.str s) := by
      simp [jsonField, h4]
    have hext : geminiExtract (.obj tf) = .ok (.str s) := by
      simp only [geminiExtract, e1, e2, e3, e4, jsonItem, except_bind_ok]
    simp [analyze_with_gemini, hb, hext, pyStr]

/-- Closed instance of `c5_gemini_failure_normalized`: a JSON object without
the `candidates` field produces the formatted failure string around the raw
body, not an exception. -/
theorem c5_witness :
    analyze_with_gemini ⟨some (Json.obj []), "rawbody"⟩
      = "Error: " ++ "KeyError: \x27candidates\x27" ++ "\n" ++ "rawbody"
    ∧ IsSubstr "Error" (analyze_with_gemini ⟨some (Json.obj []), "rawbody"⟩) :=
  ⟨((c5_gemini_failure_normalized ⟨some (Json.obj []), "rawbody"⟩).2.1
      (Json.obj []) "KeyError: \x27candidates\x27" rfl rfl).1,
   ((c5_gemini_failure_normalized ⟨some (Json.obj []), "rawbody"⟩).2.1
      (Json.obj []) "KeyError: \x27candidates\x27" rfl rfl).2.1⟩

/-- C6: what `read_scripts` actually does with an unsupported format tag —
the loop variable `text` is simply left alone, so a leading `.pdf` file
raises `NameError` (aborting the whole batch), and a `.pdf` file after a
`.txt` file appends the previous file's text again instead of an empty
string. -/
theorem c6_unsupported_format_code_behavior :
    read_scripts [⟨"a.pdf", [], []⟩]
      = .error "NameError: name \x27text\x27 is not defined"
    ∧ read_scripts [⟨"a.txt", [0x68, 0x69], []⟩, ⟨"b.pdf", [], []⟩]
      = .ok ["hi", "hi"] :=
  ⟨rfl, rfl⟩

/-- C7: on a `.txt` file, ingestion always produces some string and never
raises: when the strict UTF-8 decode fails, the byte sequence is re-decoded
with the total latin-1 fallback. -/
theorem c7_txt_decode_total_with_fallback (name : String) (bs : List Nat)
    (ps : List String) (h : pyEndsWith name ".txt" = true) :
    (∃ s, read_scripts [⟨name, bs, ps⟩] = .ok [s])
    ∧ (utf8Decode bs = none →
        read_scripts [⟨name, bs, ps⟩] = .ok [String.mk (latin1Decode bs)]) := by
  constructor
  · exact ⟨decodeTxt bs, by simp [read_scripts, readScriptsLoop, h, Except.map]⟩
  · intro hu
    simp [read_scripts, readScriptsLoop, h, decodeTxt, hu, Except.map]

/-- Closed instance of `c7_txt_decode_total_with_fallback` on the invalid
UTF-8 byte sequence `[0xFF, 0x41]`. -/
theorem c7_witness :
    read_scripts [⟨"a.txt", [0xFF, 0x41], []⟩]
      = .ok [String.mk (latin1Decode [0xFF, 0x41])] :=
  (c7_txt_decode_total_with_fallback "a.txt" [0xFF, 0x41] [] (by decide)).2 (by decide)

/-- C8: once ingestion has produced a script list, the analysis run always
yields a result string (`Except.ok`): an adapter that raises (as provider A's
SDK errors do) is caught by the `try/except` and collapsed into the
`"Error during analysis: ..."` message presented as the analysis result. -/
theorem c8_no_adapter_exception_escapes (files : List UFile) (mc key : String)
    (call : Provider → String → String → Except String String)
    (scripts : List String) (h : read_scripts files = .ok scripts) :
    (∃ out, runAnalysis files mc key call = .ok out)
    ∧ (∀ prov e, mc = providerName prov →
        call prov (prompt scripts) key = .error e →
        runAnalysis files mc key call
          = .ok ("Error during analysis: " ++ e, [prov])) := by
  constructor
  · refine ⟨(match (dispatch mc (prompt scripts) key call).1 with
      | .ok s => s
      | .error e => "Error during analysis: " ++ e,
      (dispatch mc (prompt scripts) key call).2), ?_⟩
    simp [runAnalysis, h]
  · intro prov e hmc hcall
    have hd : dispatch mc (prompt scripts) key call
        = (call prov (prompt scripts) key, [prov]) :=
      dispatch_eq_of_name mc prov (prompt scripts) key call hmc
    simp [runAnalysis, h, hd, hcall]

/-- Closed instance of `c8_no_adapter_exception_escapes`: a raising adapter
turns into the error-message result. -/
theorem c8_witness :
    runAnalysis [⟨"a.txt", [0x68], []⟩] "Hugging Face" "k"
        (fun _ _ _ => Except.error "boom")
      = .ok ("Error during analysis: " ++ "boom", [.huggingface]) :=
  (c8_no_adapter_exception_escapes [⟨"a.txt", [0x68], []⟩] "Hugging Face" "k"
    (fun _ _ _ => Except.error "boom") ["h"] rfl).2
    .huggingface "boom" rfl rfl

/-- C9 (spec-modelled): in the §4.2 composition rule, a non-empty addendum
appears in the composed prompt right after the template, prefixed by the
delimiter and separated from the documents by the document separator; an
empty addendum contributes nothing. -/
theorem c9_addendum_delimited (scripts : List String) (addendum : String) :
    (addendum ≠ "" →
      compose_with_addendum scripts addendum
        = templatePre ++ toString scripts.length ++ templatePost
          ++ addendumDelimiter ++ addendum
          ++ scriptSep ++ strJoin scriptSep (renderScripts scripts)
      ∧ IsSubstr (addendumDelimiter ++ addendum)
          (compose_with_addendum scripts addendum))
    ∧ compose_with_addendum scripts ""
        = templatePre ++ toString scripts.length ++ templatePost
          ++ scriptSep ++ strJoin scriptSep (renderScripts scripts) := by
  constructor
  · intro ha
    constructor
    · simp [compose_with_addendum, ha, String.append_assoc]
    · refine ⟨templatePre ++ toString scripts.length ++ templatePost,
        scriptSep ++ strJoin scriptSep (renderScripts scripts), ?_⟩
      simp [compose_with_addendum, ha, String.append_assoc]
  · simp [compose_with_addendum, String.append_empty, String.append_assoc]

/-- Closed instance of `c9_addendum_delimited` at a concrete addendum. -/
theorem c9_witness :
    compose_with_addendum ["A"] "Focus on pacing"
      = templatePre ++ toString (1 : Nat) ++ templatePost
        ++ addendumDelimiter ++ "Focus on pacing"
        ++ scriptSep ++ strJoin scriptSep (renderScripts ["A"]) :=
  ((c9_addendum_delimited ["A"] "Focus on pacing").1 (by simp)).1

/-- C10: ingestion and prompt composition are deterministic — they are pure
functions of the (filename, bytes, extracted paragraphs) inputs, with no
hidden state, randomness or environment reads, so equal inputs give equal
script lists and equal composed prompts. -/
theorem c10_pipeline_deterministic (files1 files2 : List UFile)
    (h : files1 = files2) :
    read_scripts files1 = read_scripts files2
    ∧ ∀ s1 s2, read_scripts files1 = .ok s1 → read_scripts files2 = .ok s2 →
        prompt s1 = prompt s2 := by
  subst h
  refine ⟨rfl, fun s1 s2 h1 h2 => ?_⟩
  rw [h1] at h2
  exact congrArg prompt (Except.ok.inj h2)

/-- Closed instance of `c10_pipeline_deterministic`: two runs on the same
concrete upload agree. -/
theorem c10_witness :
    read_scripts [⟨"a.txt", [0x68], []⟩] = read_scripts [⟨"a.txt", [0x68], []⟩] :=
  (c10_pipeline_deterministic [⟨"a.txt", [0x68], []⟩] [⟨"a.txt", [0x68], []⟩] rfl).1

end SceneComparison
